import Mathlib

/-!
Verification development for the gesture-driven music visualizer.

The TypeScript source is shallowly embedded below. Conventions used
throughout:

* JavaScript numbers are modelled as exact rationals (`ℚ`); none of the
  claims under consideration concerns floating-point rounding.
* The ambient functions `Math.sqrt`, `Math.sin`, `Math.cos` are passed in
  as explicit function parameters (`sqrtf`, `sinf`, `cosf`); theorems that
  need their mathematical meaning state it as a hypothesis relating the
  parameter to `Real.sqrt` etc.
* `Math.random()` is an unseeded stream of draws in `[0, 1)`; it is
  modelled as a function `rand : ℕ → ℚ` together with an explicit counter
  threaded through each tick in the order the source draws values
  (draws consumed by pure canvas painting are not modelled, since no
  modelled state depends on them).
* Mutable per-frame loops that update an array in place while splicing
  out dead entries (iterating from the back) preserve the relative order
  of surviving entries; they are embedded as structural recursions that
  keep that order.
-/

/-- Enum `AppMode` from types.ts. -/
inductive AppMode where
  | JELLYFISH
  | SNOW
  | RAIN
deriving DecidableEq, Repr

/-- Cyclic successor used by `setMode` inside `startDetectionLoop`:
`JELLYFISH → SNOW → RAIN → JELLYFISH`. -/
def nextMode : AppMode → AppMode
  | AppMode.JELLYFISH => AppMode.SNOW
  | AppMode.SNOW => AppMode.RAIN
  | AppMode.RAIN => AppMode.JELLYFISH

/-- One MediaPipe hand landmark: a normalized `(x, y, z)` point. -/
structure Landmark where
  x : ℚ
  y : ℚ
  z : ℚ
deriving DecidableEq, Repr

/-- Interface `HandData` from types.ts (the published pose signal). -/
structure HandData where
  x : ℚ
  y : ℚ
  isPinching : Bool
  pinchDistance : ℚ
  isPresent : Bool
  landmarks : Option (List Landmark) := none
deriving DecidableEq, Repr

/-- Landmark access `landmarks[i]`; the detector supplies 21 points, out
of range reads (which the source never performs on a detected hand)
default to the origin. -/
def lmAt (lms : List Landmark) (i : ℕ) : Landmark :=
  lms.getD i ⟨0, 0, 0⟩

/-- Squared planar distance between two landmarks; the source computes
`Math.sqrt` of exactly this quantity (only `x` and `y` enter;
`z` is ignored by the code). -/
def distSq (p q : Landmark) : ℚ :=
  (p.x - q.x) ^ 2 + (p.y - q.y) ^ 2

/-- Pinch test from `startDetectionLoop`:
`pinchDistance = Math.sqrt(pinchDx*pinchDx + pinchDy*pinchDy)` between
index tip (landmark 8) and thumb tip (landmark 4), and
`isPinching = pinchDistance < 6/100`, with `Math.sqrt` passed in as
`sqrtf`. -/
def isPinchingB (sqrtf : ℚ → ℚ) (lms : List Landmark) : Bool :=
  decide (sqrtf (distSq (lmAt lms 8) (lmAt lms 4)) < 6/100)

/-- OK-sign test from `startDetectionLoop`: pinching, and middle/ring
tips farther than 0.25 from the wrist, pinky tip farther than 0.2. -/
def isOkGestureB (sqrtf : ℚ → ℚ) (lms : List Landmark) : Bool :=
  isPinchingB sqrtf lms
    && decide (sqrtf (distSq (lmAt lms 12) (lmAt lms 0)) > 25/100)
    && decide (sqrtf (distSq (lmAt lms 16) (lmAt lms 0)) > 25/100)
    && decide (sqrtf (distSq (lmAt lms 20) (lmAt lms 0)) > 2/10)

/-- Mirrored centroid of the five palm landmarks 0, 5, 9, 13, 17:
`x` is `1 - meanX`, `y` is `meanY`. -/
def centroidOf (lms : List Landmark) : ℚ × ℚ :=
  let keyPoints := [lmAt lms 0, lmAt lms 5, lmAt lms 9, lmAt lms 13, lmAt lms 17]
  let sumX := (keyPoints.map (fun p => p.x)).sum
  let sumY := (keyPoints.map (fun p => p.y)).sum
  (1 - sumX / 5, sumY / 5)

/-- Tab ids, in the order of the `TABS` constant array
(`01 JELLY`, `02 SNOW`, `03 RAIN`). -/
def tabsIds : List AppMode := [AppMode.JELLYFISH, AppMode.SNOW, AppMode.RAIN]

/-- Function `handleTabHover`: hover a tab while the hand occupies the top
20% of the field, choosing among three equal horizontal bands. -/
def handleTabHover (data : HandData) : Option AppMode :=
  if data.y < 2/10 ∧ data.isPresent then
    if data.x < 1 / 3 then some AppMode.JELLYFISH
    else if data.x < 2 / 3 then some AppMode.SNOW
    else some AppMode.RAIN
  else none

/-- App-level state touched by the detection loop: the mode, the debounce
timestamp `lastSwitchTimeRef`, the published pose signal, and the
hovered tab. -/
structure DetState where
  mode : AppMode
  lastSwitchTime : ℤ
  handData : HandData
  hoveredTab : Option AppMode
deriving DecidableEq, Repr

/-- Initial app state: `useState(AppMode.JELLYFISH)`,
`lastSwitchTimeRef = 0`, pose `{x: 0.5, y: 0.5, isPinching: false,
pinchDistance: 0, isPresent: false}`, no hovered tab. -/
def initState : DetState :=
  { mode := AppMode.JELLYFISH
    lastSwitchTime := 0
    handData := { x := 5/10, y := 5/10, isPinching := false, pinchDistance := 0, isPresent := false }
    hoveredTab := none }

/-- One detection tick (the body of `startDetectionLoop` for a fresh
video frame). `det` is the landmark list of the first detected hand, or
`none` when no hand was detected; `now` is `Date.now()` in ms. -/
def detTick (sqrtf : ℚ → ℚ) (det : Option (List Landmark)) (now : ℤ) (s : DetState) : DetState :=
  match det with
  | none =>
      { s with
        handData := { s.handData with isPresent := false, landmarks := none }
        hoveredTab := none }
  | some lms =>
      let c := centroidOf lms
      let pinchDistance := sqrtf (distSq (lmAt lms 8) (lmAt lms 4))
      let isPinching := isPinchingB sqrtf lms
      let isOk := isOkGestureB sqrtf lms
      let doSwitch := isOk && decide (now - s.lastSwitchTime > 1500)
      let newHand : HandData :=
        { x := c.1, y := c.2, isPinching := isPinching, pinchDistance := pinchDistance
          isPresent := true, landmarks := some lms }
      { mode := if doSwitch then nextMode s.mode else s.mode
        lastSwitchTime := if doSwitch then now else s.lastSwitchTime
        handData := newHand
        hoveredTab := handleTabHover newHand }

/-- Open-hand predicate shared by all three simulations:
`handData.isPresent && !handData.isPinching && !(handData.y < 0.2)`. -/
def handOpen (hd : HandData) : Bool :=
  hd.isPresent && !hd.isPinching && !(decide (hd.y < 2/10))

/-- Behavioral state of a jellyfish creature. -/
inductive JState where
  | FOLLOWING
  | FREE
deriving DecidableEq, Repr

/-- Bubble particle owned by a jellyfish. -/
structure Bubble where
  x : ℚ
  y : ℚ
  size : ℚ
  speed : ℚ
  alpha : ℚ
  life : ℚ
deriving DecidableEq, Repr

/-- Jellyfish creature record pushed by the spawn logic of
`renderJellyfish`. -/
structure Jelly where
  x : ℚ
  y : ℚ
  vx : ℚ
  vy : ℚ
  scale : ℚ
  phase : ℚ
  state : JState
  bubbles : List Bubble
deriving DecidableEq, Repr

/-- State held by the jellyfish simulation between frames:
`particlesRef` and the edge-trigger flag `wasOpenRef`. -/
structure JellyState where
  particles : List Jelly
  wasOpen : Bool
deriving DecidableEq, Repr

/-- Spawn loop of `renderJellyfish` (6 draws per creature, in source
evaluation order: `scale`, then the object literal fields
`x`, `y`, `vx`, `vy`, `phase`). -/
def spawnJellies (rand : ℕ → ℚ) (k : ℕ) (handX handY : ℚ) : ℕ → List Jelly
  | 0 => []
  | n + 1 =>
      let scale := 3/10 + rand k * (7/10)
      { x := handX + (rand (k + 1) - 1/2) * 80
        y := handY + (rand (k + 2) - 1/2) * 80
        vx := (rand (k + 3) - 1/2) * 5
        vy := (rand (k + 4) - 1/2) * 5
        scale := scale
        phase := rand (k + 5) * 10
        state := JState.FOLLOWING
        bubbles := [] } :: spawnJellies rand (k + 6) handX handY n

/-- State-management loop of `renderJellyfish`: every `FOLLOWING`
creature becomes `FREE` with velocity `(Math.random() - 0.5) * 6` per
component (two draws per freed creature). Returns the final draw
counter. -/
def freeJellies (rand : ℕ → ℚ) (k : ℕ) : List Jelly → List Jelly × ℕ
  | [] => ([], k)
  | j :: rest =>
      if j.state = JState.FOLLOWING then
        let r := freeJellies rand (k + 2) rest
        ({ j with state := JState.FREE
                  vx := (rand k - 1/2) * 6
                  vy := (rand (k + 1) - 1/2) * 6 } :: r.1, r.2)
      else
        let r := freeJellies rand k rest
        (j :: r.1, r.2)

/-- Per-bubble update of `renderJellyfish`: rise, sinusoidal drift,
linear fade, removal at `alpha ≤ 0` (the backwards splice loop keeps
the relative order of survivors). -/
def updateBubbles (sinf : ℚ → ℚ) (time : ℚ) : List Bubble → List Bubble
  | [] => []
  | b :: rest =>
      let b' := { b with
        y := b.y - b.speed
        x := b.x + sinf (time * 5 + b.life) * (5/10)
        alpha := b.alpha - 2/100 }
      if b'.alpha ≤ 0 then updateBubbles sinf time rest
      else b' :: updateBubbles sinf time rest

/-- Movement step of one creature: `FOLLOWING` creatures ease toward the
hand (factor 0.08) with a sinusoidal bob; `FREE` creatures drift with
damping 0.98, sinusoidal perturbation, and wrap at a 100 px margin. -/
def moveJelly (sinf cosf : ℚ → ℚ) (w h handX handY time : ℚ) (j : Jelly) : Jelly :=
  if j.state = JState.FOLLOWING then
    let x := j.x + (handX - j.x) * (8/100)
    let y := j.y + (handY - j.y) * (8/100)
    let y := y + sinf (time * 5 + j.phase) * (15/10)
    { j with x := x, y := y }
  else
    let x := j.x + j.vx
    let y := j.y + j.vy
    let vx := j.vx * (98/100)
    let vy := j.vy * (98/100)
    let vx := vx + sinf (time * 2 + j.phase) * (5/100)
    let vy := vy + cosf (time * 2 + j.phase) * (5/100)
    let x := if x < -100 then w + 100 else x
    let x := if x > w + 100 then -100 else x
    let y := if y < -100 then h + 100 else y
    let y := if y > h + 100 then -100 else y
    { j with x := x, y := y, vx := vx, vy := vy }

/-- Bubble-emission step of one creature: with chance
`Math.random() < 0.15` push a bubble (three more draws, in literal
order `x`, `size`, `speed`), then run the bubble update loop. Returns
the creature and the advanced draw counter. -/
def jellyBubbleStep (rand : ℕ → ℚ) (k : ℕ) (sinf : ℚ → ℚ) (time : ℚ) (j : Jelly) :
    Jelly × ℕ :=
  if rand k < 15/100 then
    let nb : Bubble :=
      { x := j.x + (rand (k + 1) - 1/2) * 20 * j.scale
        y := j.y + 20 * j.scale
        size := (rand (k + 2) * 2 + 1/2) * j.scale
        speed := rand (k + 3) * 2 + 1
        alpha := 8/10
        life := 100 }
    ({ j with bubbles := updateBubbles sinf time (j.bubbles ++ [nb]) }, k + 4)
  else
    ({ j with bubbles := updateBubbles sinf time j.bubbles }, k + 1)

/-- Update-and-draw loop of `renderJellyfish` (drawing omitted: it
mutates no simulation state). -/
def updateJellies (sinf cosf : ℚ → ℚ) (rand : ℕ → ℚ) (k : ℕ)
    (w h handX handY time : ℚ) : List Jelly → List Jelly
  | [] => []
  | j :: rest =>
      let j1 := moveJelly sinf cosf w h handX handY time j
      let p := jellyBubbleStep rand k sinf time j1
      p.1 :: updateJellies sinf cosf rand p.2 w h handX handY time rest

/-- Spawn section of `renderJellyfish` (the rising-edge trigger): only
while `isOpen && !wasOpen` and the live count is below 20, push
`⌊2·rand⌋ + 3` new creatures. Returns the list and the next draw
counter. -/
def jellySpawnPhase (rand : ℕ → ℚ) (handX handY : ℚ) (isOpen : Bool)
    (s : JellyState) : List Jelly × ℕ :=
  if isOpen && !s.wasOpen && decide (s.particles.length < 20) then
    let spawnCount := (Int.floor (rand 0 * 2)).toNat + 3
    (s.particles ++ spawnJellies rand 1 handX handY spawnCount, 1 + 6 * spawnCount)
  else (s.particles, 0)

/-- State-management section of `renderJellyfish`: on a falling edge of
the open hand or an absent hand, run the freeing loop. -/
def jellyFreePhase (rand : ℕ → ℚ) (k : ℕ) (isOpen present wasOpen : Bool)
    (l : List Jelly) : List Jelly × ℕ :=
  if (!isOpen && wasOpen) || !present then freeJellies rand k l else (l, k)

/-- One full tick of `renderJellyfish`: spawn on a rising edge of the
open hand while fewer than 20 creatures live, free all `FOLLOWING`
creatures on a falling edge or an absent hand, then update every
creature, and finally record the edge-trigger flag. -/
def jellyTick (sinf cosf : ℚ → ℚ) (rand : ℕ → ℚ) (w h : ℚ) (hd : HandData)
    (time : ℚ) (s : JellyState) : JellyState :=
  let handX := if hd.isPresent then hd.x * w else w / 2
  let handY := if hd.isPresent then hd.y * h else h / 2
  let isOpen := handOpen hd
  let sp := jellySpawnPhase rand handX handY isOpen s
  let fr := jellyFreePhase rand sp.2 isOpen hd.isPresent s.wasOpen sp.1
  let ps' := updateJellies sinf cosf rand fr.2 w h handX handY time fr.1
  { particles := ps', wasOpen := isOpen }

/-- Whole-run fold: each element of `inputs` is one animation frame,
carrying that frame's pose signal, wall-clock time, and the slice of
the global `Math.random()` stream consumed during the frame. -/
def jellyRun (sinf cosf : ℚ → ℚ) (w h : ℚ) :
    List (HandData × ℚ × (ℕ → ℚ)) → JellyState → JellyState
  | [], s => s
  | (hd, t, rand) :: rest, s =>
      jellyRun sinf cosf w h rest (jellyTick sinf cosf rand w h hd t s)

/-- Initial jellyfish simulation state: `particlesRef = []`,
`wasOpenRef = false`. -/
def jellyInit : JellyState := ⟨[], false⟩

/-- Snowflake record returned by `createSnowflake` in `renderSnow`.
Draw order at spawn: `isBig`, then the literal fields `vx`, `vy`,
`size`, `spin`, `spinSpeed`. `Math.PI` is passed in as `piv`. -/
structure Snowflake where
  x : ℚ
  y : ℚ
  vx : ℚ
  vy : ℚ
  size : ℚ
  spin : ℚ
  spinSpeed : ℚ
  opacity : ℚ
  isParticle : Bool
deriving DecidableEq, Repr

/-- Helper `createSnowflake` of `renderSnow`:
`isBig = Math.random() > 0.95`; big flakes get `vy ∈ [2.2, 3.7)`,
`size ∈ [8, 20)`, low drift; small flakes get `vy ∈ [0.3, 1.1)`,
`size ∈ [1, 4)`, more drift; `isParticle = !isBig`. -/
def createSnowflake (rand : ℕ → ℚ) (k : ℕ) (piv : ℚ) (x y : ℚ) : Snowflake :=
  let isBig := decide (rand k > 95/100)
  { x := x
    y := y
    vx := (rand (k + 1) - 1/2) * (if isBig then 5/10 else 2)
    vy := if isBig then 22/10 + rand (k + 2) * (15/10) else 3/10 + rand (k + 2) * (8/10)
    size := if isBig then 8 + rand (k + 3) * 12 else 1 + rand (k + 3) * 3
    spin := rand (k + 4) * piv
    spinSpeed := (rand (k + 5) - 1/2) * (5/100)
    opacity := if isBig then 95/100 else 85/100
    isParticle := !isBig }

/-- Landing mutation of the snow ground height field (the "mound" loop
of `renderSnow`): for every column within `radius = ⌊size * 2⌋` of the
landing column `gx` that lies inside `[0, width)`, subtract a
triangular-falloff contribution and clamp below at 0. Columns are
naturals, so the `idx ≥ 0` guard of the source is implicit. -/
def landUpdate (width : ℕ) (g : ℕ → ℚ) (gx : ℤ) (size : ℚ) : ℕ → ℚ :=
  fun i =>
    let radius : ℤ := Int.floor (size * 2)
    if |(i : ℤ) - gx| ≤ radius ∧ (i : ℤ) < width then
      let contribution := (1 - (|(i : ℤ) - gx| : ℚ) / (radius : ℚ)) * (size * (5/10))
      max 0 (g i - contribution)
    else g i

/-- Melting mutation of the snow ground height field (the
"erase/melt" loop of `renderSnow`): for every column within the fixed
50 px brush of the hand column `hx` that lies inside `[0, width)`, add
a linear-falloff power and clamp above at the canvas height. -/
def meltUpdate (width : ℕ) (hgt : ℚ) (g : ℕ → ℚ) (hx : ℤ) : ℕ → ℚ :=
  fun i =>
    if |(i : ℤ) - hx| ≤ 50 ∧ (i : ℤ) < width then
      let power := 3 * (1 - (|(i : ℤ) - hx| : ℚ) / 50)
      min hgt (g i + power)
    else g i

/-- One height-field mutation: a flake landing at column `gx` with a
given size, or a hand-melt centred at column `hx`. -/
inductive SnowUpdate where
  | land (gx : ℤ) (size : ℚ)
  | melt (hx : ℤ)
deriving DecidableEq, Repr

/-- Sizes the simulation can actually hand to the landing loop: every
spawned flake has `size ≥ 1`. -/
def validSnowUpdate : SnowUpdate → Bool
  | SnowUpdate.land _ size => decide (1 ≤ size)
  | SnowUpdate.melt _ => true

/-- Fold a sequence of landing/melting mutations over a height field. -/
def applySnowUpdates (width : ℕ) (hgt : ℚ) (us : List SnowUpdate) (g : ℕ → ℚ) : ℕ → ℚ :=
  match us with
  | [] => g
  | SnowUpdate.land gx size :: rest =>
      applySnowUpdates width hgt rest (landUpdate width g gx size)
  | SnowUpdate.melt hx :: rest =>
      applySnowUpdates width hgt rest (meltUpdate width hgt g hx)

/-- Rain drop record from `renderRain`. -/
structure Drop where
  x : ℚ
  y : ℚ
  len : ℚ
  speed : ℚ
deriving DecidableEq, Repr

/-- Water ripple record from `renderRain` (`isHand` marks the extra
ripples emitted at the hand position). -/
structure Ripple where
  x : ℚ
  y : ℚ
  r : ℚ
  maxR : ℚ
  alpha : ℚ
  isHand : Bool := false
deriving DecidableEq, Repr

/-- Splash particle record from `renderRain`. -/
structure Splash where
  x : ℚ
  y : ℚ
  vx : ℚ
  vy : ℚ
  life : ℚ
deriving DecidableEq, Repr

/-- State held by the rain simulation between frames: `particlesRef`,
`ripplesRef`, `splashesRef`. -/
structure RainState where
  drops : List Drop
  ripples : List Ripple
  splashes : List Splash
deriving DecidableEq, Repr

/-- Spawn loop of `renderRain` (three draws per drop, in literal order
`x`, `len`, `speed`); new drops start at `y = -50`. -/
def spawnDrops (rand : ℕ → ℚ) (k : ℕ) (w : ℚ) : ℕ → List Drop × ℕ
  | 0 => ([], k)
  | n + 1 =>
      let d : Drop :=
        { x := rand k * w
          y := -50
          len := 20 + rand (k + 1) * 20
          speed := 20 + rand (k + 2) * 10 }
      let r := spawnDrops rand (k + 3) w n
      (d :: r.1, r.2)

/-- Drop-update loop of `renderRain`: each drop falls by its speed; a
drop whose updated `y` exceeds the water line is removed and converted
into one ripple (two draws) plus three splash particles (two draws
each); survivors keep their relative order. Returns the surviving
drops, the newly created ripples and splashes, and the final draw
counter. -/
def processDrops (rand : ℕ → ℚ) (k : ℕ) (waterLevel : ℚ) :
    List Drop → List Drop × List Ripple × List Splash × ℕ
  | [] => ([], [], [], k)
  | d :: rest =>
      let y' := d.y + d.speed
      if y' > waterLevel then
        let rip : Ripple :=
          { x := d.x, y := waterLevel + rand k * 10, r := 0
            maxR := 20 + rand (k + 1) * 20, alpha := 1 }
        let sps : List Splash :=
          [ { x := d.x, y := waterLevel, vx := (rand (k + 2) - 1/2) * 4
              vy := -(rand (k + 3) * 5 + 2), life := 1 }
          , { x := d.x, y := waterLevel, vx := (rand (k + 4) - 1/2) * 4
              vy := -(rand (k + 5) * 5 + 2), life := 1 }
          , { x := d.x, y := waterLevel, vx := (rand (k + 6) - 1/2) * 4
              vy := -(rand (k + 7) * 5 + 2), life := 1 } ]
        let r := processDrops rand (k + 8) waterLevel rest
        (r.1, rip :: r.2.1, sps ++ r.2.2.1, r.2.2.2)
      else
        let r := processDrops rand k waterLevel rest
        ({ d with y := y' } :: r.1, r.2.1, r.2.2.1, r.2.2.2)

/-- Ripple-update loop of `renderRain`: grow the radius, fade the alpha
by 0.02, remove at `alpha ≤ 0`. -/
def rippleStep : List Ripple → List Ripple
  | [] => []
  | rp :: rest =>
      let rp' := { rp with r := rp.r + 1, alpha := rp.alpha - 2/100 }
      if rp'.alpha ≤ 0 then rippleStep rest else rp' :: rippleStep rest

/-- Splash-update loop of `renderRain`: ballistic motion with gravity
0.5 per tick, life fading by 0.05, removal at `life ≤ 0` or below the
frame. -/
def splashStep (h : ℚ) : List Splash → List Splash
  | [] => []
  | sp :: rest =>
      let sp' := { sp with
        x := sp.x + sp.vx
        y := sp.y + sp.vy
        vy := sp.vy + 5/10
        life := sp.life - 5/100 }
      if sp'.life ≤ 0 ∨ sp'.y > h then splashStep h rest
      else sp' :: splashStep h rest

/-- One full tick of `renderRain`: derive the intensity from hand
openness, spawn up to 10 drops, advance drops (converting water-line
crossers), emit the stochastic hand ripple/splash near the water line,
then run the ripple and splash update loops. -/
def rainTick (rand : ℕ → ℚ) (w h : ℚ) (hd : HandData) (s : RainState) : RainState :=
  let isOpen := handOpen hd
  let intensity := if isOpen then min (max ((hd.pinchDistance - 2/100) * 4) 0) 1 else 0
  let waterLevel := h - 100
  let spawnRate := (Int.floor (intensity * 10)).toNat
  let sp := spawnDrops rand 0 w spawnRate
  let pr := processDrops rand sp.2 waterLevel (s.drops ++ sp.1)
  let k := pr.2.2.2
  let nearWater := hd.isPresent && decide (hd.y * h > waterLevel - 20)
  let handRips : List Ripple :=
    if nearWater ∧ rand k > 1/2 then
      [{ x := hd.x * w, y := hd.y * h, r := 0, maxR := 40, alpha := 1, isHand := true }]
    else []
  let handSps : List Splash :=
    if nearWater ∧ rand (k + 1) > 8/10 then
      [{ x := hd.x * w, y := hd.y * h, vx := (rand (k + 2) - 1/2) * 6
         vy := -(rand (k + 3) * 8), life := 1 }]
    else []
  { drops := pr.1
    ripples := rippleStep (s.ripples ++ pr.2.1 ++ handRips)
    splashes := splashStep h (s.splashes ++ pr.2.2.1 ++ handSps) }

/-- Mutable refs of the `Visualizer` component that hold per-mode
simulation state: the shared particle array (jellyfish / snowflakes /
drops depending on the active mode), ripples, splashes, the edge-trigger
flag, and the snow ground height field (`null` until the snow
simulation initializes it). The element types are parameters because
the source arrays are untyped. -/
structure VisState (P R S G : Type) where
  particles : List P
  ripples : List R
  splashes : List S
  wasOpen : Bool
  snowGround : Option G
deriving DecidableEq

/-- Body of the `useEffect` that fires on a mode change: every
collection is emptied, the edge-trigger flag cleared, and the snow pile
dropped. This also coincides with the initial values of the refs. -/
def resetVis {P R S G : Type} : VisState P R S G :=
  { particles := [], ripples := [], splashes := [], wasOpen := false, snowGround := none }

/-- Mode-changing inputs: the OK-gesture switch (cyclic advance) or an
explicit tab selection. -/
inductive ModeEvent where
  | switchGesture
  | select (m : AppMode)
deriving DecidableEq, Repr

/-- Mode reached by an event from mode `m`. -/
def eventTarget (m : AppMode) : ModeEvent → AppMode
  | ModeEvent.switchGesture => nextMode m
  | ModeEvent.select m' => m'

/-- Mode event applied to the app mode and the `Visualizer` refs: React
re-runs the reset effect exactly when the `mode` dependency changed. -/
def appModeStep {P R S G : Type} (e : ModeEvent) (st : AppMode × VisState P R S G) :
    AppMode × VisState P R S G :=
  let m' := eventTarget st.1 e
  (m', if m' = st.1 then st.2 else resetVis)

/-- Pose fixture: an open hand in mid-field. -/
def openHand : HandData :=
  { x := 5/10, y := 5/10, isPinching := false, pinchDistance := 0, isPresent := true }

/-- Pose fixture: no detected hand. -/
def absentHand : HandData :=
  { x := 5/10, y := 5/10, isPinching := false, pinchDistance := 0, isPresent := false }

/-- Ambient-function fixture: the constant-zero real-valued function. -/
def zf : ℚ → ℚ := fun _ => 0

/-- Random-stream fixture: every draw is 0. -/
def zr : ℕ → ℚ := fun _ => 0

/-- Random-stream fixture: every draw is 1/2 (a value `Math.random()`
attains). -/
def halfR : ℕ → ℚ := fun _ => 1/2

/-- Landmark fixture: 21 points forming an OK-sign with
perfect-square gesture distances (pinch 0.05, middle 0.5, ring 0.5,
pinky 0.3). -/
def okLms : List Landmark :=
  [ ⟨0, 0, 0⟩, ⟨0, 0, 0⟩, ⟨0, 0, 0⟩, ⟨0, 0, 0⟩
  , ⟨1/2, 1/2, 0⟩, ⟨0, 0, 0⟩, ⟨0, 0, 0⟩, ⟨0, 0, 0⟩
  , ⟨53/100, 54/100, 0⟩, ⟨0, 0, 0⟩, ⟨0, 0, 0⟩, ⟨0, 0, 0⟩
  , ⟨3/10, 4/10, 0⟩, ⟨0, 0, 0⟩, ⟨0, 0, 0⟩, ⟨0, 0, 0⟩
  , ⟨4/10, 3/10, 0⟩, ⟨0, 0, 0⟩, ⟨0, 0, 0⟩, ⟨0, 0, 0⟩
  , ⟨3/10, 0, 0⟩ ]

/-- Square-root fixture agreeing with `Math.sqrt` on every value the
gesture math reaches from `okLms`. -/
def okSqrt : ℚ → ℚ := fun q =>
  if q = 25/10000 then 5/100
  else if q = 25/100 then 5/10
  else if q = 9/100 then 3/10
  else 0

/-- A default `Jelly` used for positional list access in statements. -/
def dummyJelly : Jelly :=
  { x := 0, y := 0, vx := 0, vy := 0, scale := 0, phase := 0
    state := JState.FREE, bubbles := [] }

/-- Helper: an accepted switch. When the OK-gesture holds and strictly
more than 1500 ms elapsed since the last switch, the tick advances the
mode cyclically and resets the debounce timestamp. -/
theorem detTick_accept (sqrtf : ℚ → ℚ) (lms : List Landmark) (now : ℤ) (s : DetState)
    (hok : isOkGestureB sqrtf lms = true) (ht : now - s.lastSwitchTime > 1500) :
    (detTick sqrtf (some lms) now s).mode = nextMode s.mode ∧
      (detTick sqrtf (some lms) now s).lastSwitchTime = now := by
  simp [detTick, hok, ht]

/-- Helper: a rejected switch. Within the debounce window the tick
leaves the mode and the debounce timestamp untouched. -/
theorem detTick_reject (sqrtf : ℚ → ℚ) (lms : List Landmark) (now : ℤ) (s : DetState)
    (ht : ¬now - s.lastSwitchTime > 1500) :
    (detTick sqrtf (some lms) now s).mode = s.mode ∧
      (detTick sqrtf (some lms) now s).lastSwitchTime = s.lastSwitchTime := by
  simp [detTick, ht]

/-- C3 (amended): on a tick that detects the OK-gesture, a mode switch
is emitted and the debounce timer reset exactly when strictly more than
1500 ms elapsed since the previous switch; otherwise (in particular for
any second gesture within the window) nothing changes. -/
theorem okGesture_debounce (sqrtf : ℚ → ℚ) (lms : List Landmark) (now : ℤ)
    (s : DetState) (hok : isOkGestureB sqrtf lms = true) :
    (now - s.lastSwitchTime > 1500 →
      (detTick sqrtf (some lms) now s).mode = nextMode s.mode ∧
        (detTick sqrtf (some lms) now s).lastSwitchTime = now) ∧
    (now - s.lastSwitchTime ≤ 1500 →
      (detTick sqrtf (some lms) now s).mode = s.mode ∧
        (detTick sqrtf (some lms) now s).lastSwitchTime = s.lastSwitchTime) := by
  constructor
  · intro ht
    exact detTick_accept sqrtf lms now s hok ht
  · intro ht
    exact detTick_reject sqrtf lms now s (by omega)

/-- C3 witness: from the initial state, an OK-gesture at t = 2000 ms is
accepted and resets the timer. -/
theorem okGesture_debounce_witness :
    (detTick okSqrt (some okLms) 2000 initState).mode = nextMode initState.mode ∧
      (detTick okSqrt (some okLms) 2000 initState).lastSwitchTime = 2000 :=
  (okGesture_debounce okSqrt okLms 2000 initState
    (by with_unfolding_all decide)).1 (by decide)

/-- C3 counterexample: an OK-gesture exactly 1500 ms after the previous
switch — "at least 1500 ms have elapsed" in the claim's sense — produces
no transition and leaves the timer unchanged, because the source demands
strictly more than 1500 ms. -/
theorem okGesture_at_1500_cex :
    isOkGestureB okSqrt okLms = true ∧
      (1500 : ℤ) - initState.lastSwitchTime ≥ 1500 ∧
      (detTick okSqrt (some okLms) 1500 initState).mode = initState.mode ∧
      (detTick okSqrt (some okLms) 1500 initState).lastSwitchTime
        = initState.lastSwitchTime := by
  refine ⟨by with_unfolding_all decide, by decide, ?_⟩
  exact detTick_reject okSqrt okLms 1500 initState (by decide)

/-- C8: the controller starts in `JELLYFISH`, the cyclic successor has
period three, and three accepted OK-gesture switches (each strictly
beyond the debounce window, hence each emitted) return the controller to
the mode it started from. -/
theorem mode_cycle_three :
    initState.mode = AppMode.JELLYFISH ∧
    (∀ m, nextMode (nextMode (nextMode m)) = m) ∧
    ∀ (sqrtf : ℚ → ℚ) (lms : List Landmark) (s : DetState) (t1 t2 t3 : ℤ),
      isOkGestureB sqrtf lms = true →
      t1 - s.lastSwitchTime > 1500 → t2 - t1 > 1500 → t3 - t2 > 1500 →
      (detTick sqrtf (some lms) t3 (detTick sqrtf (some lms) t2
        (detTick sqrtf (some lms) t1 s))).mode = s.mode := by
  refine ⟨rfl, fun m => by cases m <;> rfl, ?_⟩
  intro sqrtf lms s t1 t2 t3 hok h1 h2 h3
  obtain ⟨hm1, hl1⟩ := detTick_accept sqrtf lms t1 s hok h1
  obtain ⟨hm2, hl2⟩ := detTick_accept sqrtf lms t2 _ hok (by rw [hl1]; exact h2)
  obtain ⟨hm3, _⟩ := detTick_accept sqrtf lms t3 _ hok (by rw [hl2]; exact h3)
  rw [hm3, hm2, hm1]
  cases s.mode <;> rfl

/-- C8 witness: three OK-gestures at t = 2000, 4000, 6000 ms from the
initial state cycle back to `JELLYFISH`. -/
theorem mode_cycle_three_witness :
    (detTick okSqrt (some okLms) 6000 (detTick okSqrt (some okLms) 4000
      (detTick okSqrt (some okLms) 2000 initState))).mode = initState.mode :=
  mode_cycle_three.2.2 okSqrt okLms initState 2000 4000 6000
    (by with_unfolding_all decide) (by decide) (by decide) (by decide)

/-- C10: a detection tick with no detected hand keeps the previous
pose's `x`, `y`, `isPinching` and `pinchDistance`, only lowers
`isPresent` and clears the landmarks, clears the hovered tab, and — the
switch logic living in the detected branch — leaves the mode and the
debounce timer untouched. -/
theorem noHand_frame_effect (sqrtf : ℚ → ℚ) (now : ℤ) (s : DetState) :
    (detTick sqrtf none now s).handData.x = s.handData.x ∧
    (detTick sqrtf none now s).handData.y = s.handData.y ∧
    (detTick sqrtf none now s).handData.isPinching = s.handData.isPinching ∧
    (detTick sqrtf none now s).handData.pinchDistance = s.handData.pinchDistance ∧
    (detTick sqrtf none now s).handData.isPresent = false ∧
    (detTick sqrtf none now s).handData.landmarks = none ∧
    (detTick sqrtf none now s).hoveredTab = none ∧
    (detTick sqrtf none now s).mode = s.mode ∧
    (detTick sqrtf none now s).lastSwitchTime = s.lastSwitchTime := by
  simp [detTick]

/-- C7: whenever a mode event actually changes the mode — and the
OK-gesture switch always does — the `Visualizer` refs are reset
wholesale: all three entity collections emptied, the edge-trigger flag
cleared, and the snow ground height field dropped, so nothing survives
into the incoming theme. -/
theorem mode_transition_resets {P R S G : Type} (e : ModeEvent)
    (st : AppMode × VisState P R S G) :
    ((appModeStep e st).1 ≠ st.1 → (appModeStep e st).2 = resetVis) ∧
    (appModeStep ModeEvent.switchGesture st).1 ≠ st.1 := by
  constructor
  · intro h
    unfold appModeStep at h ⊢
    simp only at h ⊢
    rw [if_neg h]
  · unfold appModeStep eventTarget
    cases st.1 <;> simp [nextMode]

/-- C7 witness: a gesture switch out of `JELLYFISH` discards concrete
non-empty collections, a set flag and a live snow pile. -/
theorem mode_transition_resets_witness :
    ((appModeStep ModeEvent.switchGesture
        ((AppMode.JELLYFISH, ⟨[1], [2], [3], true, some 5⟩) :
          AppMode × VisState ℕ ℕ ℕ ℕ)).2 = resetVis) ∧
    (appModeStep ModeEvent.switchGesture
        ((AppMode.JELLYFISH, ⟨[1], [2], [3], true, some 5⟩) :
          AppMode × VisState ℕ ℕ ℕ ℕ)).1 ≠ AppMode.JELLYFISH :=
  ⟨(mode_transition_resets ModeEvent.switchGesture _).1 (by decide),
   (mode_transition_resets ModeEvent.switchGesture
      ((AppMode.JELLYFISH, ⟨[1], [2], [3], true, some 5⟩) :
        AppMode × VisState ℕ ℕ ℕ ℕ)).2⟩

/-- Helper: the spawn loop produces exactly the requested number of
creatures. -/
theorem spawnJellies_length (rand : ℕ → ℚ) (k : ℕ) (hx hy : ℚ) (n : ℕ) :
    (spawnJellies rand k hx hy n).length = n := by
  induction n generalizing k with
  | zero => rfl
  | succ m ih => simp [spawnJellies, ih]

/-- Helper: the freeing loop keeps the creature count. -/
theorem freeJellies_length (rand : ℕ → ℚ) (k : ℕ) (l : List Jelly) :
    (freeJellies rand k l).1.length = l.length := by
  induction l generalizing k with
  | nil => rfl
  | cons j rest ih =>
      unfold freeJellies
      split <;> simp [ih]

/-- Helper: the per-creature update loop keeps the creature count. -/
theorem updateJellies_length (sinf cosf : ℚ → ℚ) (rand : ℕ → ℚ) (k : ℕ)
    (w h hx hy t : ℚ) (l : List Jelly) :
    (updateJellies sinf cosf rand k w h hx hy t l).length = l.length := by
  induction l generalizing k with
  | nil => rfl
  | cons j rest ih => simp [updateJellies, ih]

/-- Helper: the freeing phase keeps the creature count. -/
theorem jellyFreePhase_length (rand : ℕ → ℚ) (k : ℕ) (o p wo : Bool)
    (l : List Jelly) : (jellyFreePhase rand k o p wo l).1.length = l.length := by
  unfold jellyFreePhase
  split
  · exact freeJellies_length rand k l
  · rfl

/-- Helper: the spawn phase never pushes the creature count beyond 23,
because it adds only below a count of 20 and then at most
`⌊2·rand⌋ + 3 ≤ 4` creatures. -/
theorem jellySpawnPhase_length_le (rand : ℕ → ℚ) (hx hy : ℚ) (o : Bool)
    (s : JellyState) (hr : 0 ≤ rand 0 ∧ rand 0 < 1)
    (hs : s.particles.length ≤ 23) :
    (jellySpawnPhase rand hx hy o s).1.length ≤ 23 := by
  unfold jellySpawnPhase
  split
  · next hcond =>
      have hlt : s.particles.length < 20 := by
        simp only [Bool.and_eq_true, decide_eq_true_eq] at hcond
        exact hcond.2
      have hfloor : Int.floor (rand 0 * 2) ≤ 1 := by
        have h2 : rand 0 * 2 < 2 := by nlinarith [hr.1, hr.2]
        have hfl : Int.floor (rand 0 * 2) < 2 := Int.floor_lt.mpr (by exact_mod_cast h2)
        omega
      simp only [List.length_append, spawnJellies_length]
      omega
  · exact hs

/-- Helper: one tick never pushes the creature count beyond 23. -/
theorem jellyTick_length_le (sinf cosf : ℚ → ℚ) (rand : ℕ → ℚ) (w h : ℚ)
    (hd : HandData) (t : ℚ) (s : JellyState)
    (hr : 0 ≤ rand 0 ∧ rand 0 < 1) (hs : s.particles.length ≤ 23) :
    (jellyTick sinf cosf rand w h hd t s).particles.length ≤ 23 := by
  unfold jellyTick
  simp only [updateJellies_length, jellyFreePhase_length]
  exact jellySpawnPhase_length_le rand _ _ _ s hr hs

/-- Helper: along any run, the creature count stays at most 23 as long
as every frame's first draw is a genuine `Math.random()` value. -/
theorem jellyRun_length_le (sinf cosf : ℚ → ℚ) (w h : ℚ)
    (inputs : List (HandData × ℚ × (ℕ → ℚ)))
    (hr : ∀ p ∈ inputs, 0 ≤ p.2.2 0 ∧ p.2.2 0 < 1) (s : JellyState)
    (hs : s.particles.length ≤ 23) :
    (jellyRun sinf cosf w h inputs s).particles.length ≤ 23 := by
  induction inputs generalizing s with
  | nil => exact hs
  | cons p rest ih =>
      exact ih (fun q hq => hr q (List.mem_cons_of_mem p hq))
        (jellyTick sinf cosf p.2.2 w h p.1 p.2.1 s)
        (jellyTick_length_le sinf cosf p.2.2 w h p.1 p.2.1 s
          (hr p (List.mem_cons_self p rest)) hs)

/-- C1 (amended): starting from the empty simulation, the live
jellyfish count never exceeds 23: the spawn trigger is honoured only
while the count is below 20 and each trigger adds at most 4 creatures
(the cap of 20 claimed by the specification is overshot by up to 3). -/
theorem jellyfish_cap (sinf cosf : ℚ → ℚ) (w h : ℚ)
    (inputs : List (HandData × ℚ × (ℕ → ℚ)))
    (hr : ∀ p ∈ inputs, 0 ≤ p.2.2 0 ∧ p.2.2 0 < 1) :
    (jellyRun sinf cosf w h inputs jellyInit).particles.length ≤ 23 :=
  jellyRun_length_le sinf cosf w h inputs hr jellyInit (by decide)

/-- Tick sequence fixture: thirteen frames whose pose alternates
open-hand / absent-hand, giving seven rising edges of `handOpen`; every
frame draws the constant-zero random stream, so each accepted trigger
spawns exactly 3 creatures. -/
def cexInputs : List (HandData × ℚ × (ℕ → ℚ)) :=
  [(openHand, 0, zr), (absentHand, 0, zr), (openHand, 0, zr), (absentHand, 0, zr),
   (openHand, 0, zr), (absentHand, 0, zr), (openHand, 0, zr), (absentHand, 0, zr),
   (openHand, 0, zr), (absentHand, 0, zr), (openHand, 0, zr), (absentHand, 0, zr),
   (openHand, 0, zr)]

/-- C1 witness: the amended bound applied to the concrete thirteen-frame
run. -/
theorem jellyfish_cap_witness :
    (jellyRun zf zf 1000 800 cexInputs jellyInit).particles.length ≤ 23 :=
  jellyfish_cap zf zf 1000 800 cexInputs
    (by
      intro p hp
      simp only [cexInputs, List.mem_cons, List.not_mem_nil, or_false] at hp
      rcases hp with h | h | h | h | h | h | h | h | h | h | h | h | h <;>
        subst h <;> exact ⟨le_refl 0, by norm_num [zr]⟩)

/-- C1 counterexample: the same thirteen-frame run drives the live count
to 21, exceeding the claimed hard cap of 20 (the 7th rising edge fires
at count 18 < 20 and spawns 3 more). -/
theorem jellyfish_cap_cex :
    20 < (jellyRun zf zf 1000 800 cexInputs jellyInit).particles.length := by
  with_unfolding_all decide

/-- Helper: after the freeing loop every creature is `FREE` (a
`FOLLOWING` creature is converted, the only other state is `FREE`). -/
theorem freeJellies_all_free (rand : ℕ → ℚ) (k : ℕ) (l : List Jelly) :
    ∀ j ∈ (freeJellies rand k l).1, j.state = JState.FREE := by
  induction l generalizing k with
  | nil => intro j hj; cases hj
  | cons a rest ih =>
      intro j hj
      unfold freeJellies at hj
      by_cases ha : a.state = JState.FOLLOWING
      · rw [if_pos ha] at hj
        rcases List.mem_cons.mp hj with hj | hj
        · rw [hj]
        · exact ih (k + 2) j hj
      · rw [if_neg ha] at hj
        rcases List.mem_cons.mp hj with hj | hj
        · subst hj
          cases hs : j.state with
          | FREE => rfl
          | FOLLOWING => exact absurd hs ha
        · exact ih k j hj

/-- Helper: movement does not change a creature's behavioral state. -/
theorem moveJelly_state (sinf cosf : ℚ → ℚ) (w h hx hy t : ℚ) (j : Jelly) :
    (moveJelly sinf cosf w h hx hy t j).state = j.state := by
  unfold moveJelly
  split <;> rfl

/-- Helper: bubble emission does not change a creature's behavioral
state. -/
theorem jellyBubbleStep_state (rand : ℕ → ℚ) (k : ℕ) (sinf : ℚ → ℚ) (t : ℚ)
    (j : Jelly) : (jellyBubbleStep rand k sinf t j).1.state = j.state := by
  unfold jellyBubbleStep
  split <;> rfl

/-- Helper: the update loop preserves every creature's behavioral state
positionally. -/
theorem updateJellies_state (sinf cosf : ℚ → ℚ) (rand : ℕ → ℚ) (k : ℕ)
    (w h hx hy t : ℚ) (l : List Jelly) (i : ℕ) :
    ((updateJellies sinf cosf rand k w h hx hy t l).getD i dummyJelly).state
      = ((l.getD i dummyJelly) |>.state) ∨ l.length ≤ i := by
  induction l generalizing k i with
  | nil => right; exact Nat.zero_le i
  | cons a rest ih =>
      cases i with
      | zero =>
          left
          simp only [updateJellies, List.getD_cons_zero]
          rw [jellyBubbleStep_state, moveJelly_state]
      | succ m =>
          rcases ih (jellyBubbleStep rand k sinf t
              (moveJelly sinf cosf w h hx hy t a)).2 m with hc | hc
          · left
            simpa [updateJellies] using hc
          · right
            simpa [Nat.succ_le_succ_iff] using hc

/-- Helper: if every creature in the list is `FREE`, the update loop
keeps it so. -/
theorem updateJellies_all_free (sinf cosf : ℚ → ℚ) (rand : ℕ → ℚ) (k : ℕ)
    (w h hx hy t : ℚ) (l : List Jelly) (hl : ∀ j ∈ l, j.state = JState.FREE) :
    ∀ j ∈ updateJellies sinf cosf rand k w h hx hy t l, j.state = JState.FREE := by
  induction l generalizing k with
  | nil => intro j hj; cases hj
  | cons a rest ih =>
      intro j hj
      simp only [updateJellies, List.mem_cons] at hj
      rcases hj with hj | hj
      · rw [hj, jellyBubbleStep_state, moveJelly_state]
        exact hl a (List.mem_cons_self a rest)
      · exact ih _ (fun q hq => hl q (List.mem_cons_of_mem a hq)) j hj

/-- Helper: the freeing loop maps an already-`FREE` creature to a
`FREE` creature at the same position. -/
theorem freeJellies_getD_free (rand : ℕ → ℚ) (k : ℕ) (l : List Jelly) (i : ℕ)
    (hi : i < l.length) :
    ((freeJellies rand k l).1.getD i dummyJelly).state = JState.FREE := by
  have hlen : i < (freeJellies rand k l).1.length := by
    rw [freeJellies_length]; exact hi
  have hmem : (freeJellies rand k l).1.getD i dummyJelly ∈ (freeJellies rand k l).1 := by
    rw [List.getD_eq_getElem _ _ hlen]
    exact List.getElem_mem hlen
  exact freeJellies_all_free rand k l _ hmem

/-- Helper: when the falling-edge/absent condition holds, the freeing
phase leaves every creature `FREE`. -/
theorem jellyFreePhase_all_free (rand : ℕ → ℚ) (k : ℕ) (o p wo : Bool)
    (l : List Jelly) (hcond : ((!o && wo) || !p) = true) :
    ∀ j ∈ (jellyFreePhase rand k o p wo l).1, j.state = JState.FREE := by
  unfold jellyFreePhase
  rw [if_pos hcond]
  exact freeJellies_all_free rand k l

/-- Helper: the freeing phase maps an already-`FREE` creature to a
`FREE` creature at the same position. -/
theorem jellyFreePhase_getD_free (rand : ℕ → ℚ) (k : ℕ) (o p wo : Bool)
    (l : List Jelly) (i : ℕ) (hi : i < l.length)
    (hfree : (l.getD i dummyJelly).state = JState.FREE) :
    ((jellyFreePhase rand k o p wo l).1.getD i dummyJelly).state = JState.FREE := by
  unfold jellyFreePhase
  split
  · exact freeJellies_getD_free rand k l i hi
  · exact hfree

/-- Helper: the spawn phase appends, so positions below the old length
are unchanged and remain in range. -/
theorem jellySpawnPhase_getD (rand : ℕ → ℚ) (hx hy : ℚ) (o : Bool)
    (s : JellyState) (i : ℕ) (hi : i < s.particles.length) :
    (jellySpawnPhase rand hx hy o s).1.getD i dummyJelly
        = s.particles.getD i dummyJelly ∧
      i < (jellySpawnPhase rand hx hy o s).1.length := by
  unfold jellySpawnPhase
  split
  · exact ⟨List.getD_append _ _ _ _ hi, by simp only [List.length_append]; omega⟩
  · exact ⟨rfl, hi⟩

/-- C9 (amended): on a falling edge of `handOpen` or while the hand is
absent, every creature of the tick's outcome is `FREE` (each
`FOLLOWING` one was freed, with velocity components
`(Math.random() − 0.5) · 6`, which lie in `[−3, 3)` and in particular
may be zero); and a creature that is `FREE` before a tick is still
`FREE` after it — there is no transition back to `FOLLOWING`. -/
theorem jellyfish_free_transitions (sinf cosf : ℚ → ℚ) (rand : ℕ → ℚ) (w h : ℚ)
    (hd : HandData) (t : ℚ) (s : JellyState) :
    (((handOpen hd = false ∧ s.wasOpen = true) ∨ hd.isPresent = false) →
      ∀ j ∈ (jellyTick sinf cosf rand w h hd t s).particles, j.state = JState.FREE) ∧
    (∀ i, i < s.particles.length →
      (s.particles.getD i dummyJelly).state = JState.FREE →
      ((jellyTick sinf cosf rand w h hd t s).particles.getD i dummyJelly).state
        = JState.FREE) := by
  constructor
  · intro hc
    have hfr : ((!handOpen hd && s.wasOpen) || !hd.isPresent) = true := by
      rcases hc with ⟨h1, h2⟩ | h2
      · rw [h1, h2]
        rfl
      · rw [h2]
        simp
    simp only [jellyTick]
    exact updateJellies_all_free _ _ _ _ _ _ _ _ _ _
      (jellyFreePhase_all_free _ _ _ _ _ _ hfr)
  · intro i hi hfree
    simp only [jellyTick]
    obtain ⟨hgd, hlen⟩ :=
      jellySpawnPhase_getD rand (if hd.isPresent then hd.x * w else w / 2)
        (if hd.isPresent then hd.y * h else h / 2) (handOpen hd) s i hi
    have hfl : ((jellyFreePhase rand
        (jellySpawnPhase rand (if hd.isPresent then hd.x * w else w / 2)
          (if hd.isPresent then hd.y * h else h / 2) (handOpen hd) s).2
        (handOpen hd) hd.isPresent s.wasOpen
        (jellySpawnPhase rand (if hd.isPresent then hd.x * w else w / 2)
          (if hd.isPresent then hd.y * h else h / 2) (handOpen hd) s).1).1.getD i
          dummyJelly).state = JState.FREE :=
      jellyFreePhase_getD_free _ _ _ _ _ _ i hlen (hgd ▸ hfree)
    have hflen : i < (jellyFreePhase rand
        (jellySpawnPhase rand (if hd.isPresent then hd.x * w else w / 2)
          (if hd.isPresent then hd.y * h else h / 2) (handOpen hd) s).2
        (handOpen hd) hd.isPresent s.wasOpen
        (jellySpawnPhase rand (if hd.isPresent then hd.x * w else w / 2)
          (if hd.isPresent then hd.y * h else h / 2) (handOpen hd) s).1).1.length := by
      rw [jellyFreePhase_length]
      exact hlen
    rcases updateJellies_state sinf cosf rand _ w h _ _ t _ i with hc | hc
    · rw [hc]
      exact hfl
    · omega

/-- Jellyfish fixtures for the C9 statements: a `FOLLOWING` creature, a
`FREE` creature, and a two-creature simulation state with the
edge-trigger flag set. -/
def followJelly : Jelly :=
  { x := 500, y := 400, vx := 1, vy := 1, scale := 1/2, phase := 0
    state := JState.FOLLOWING, bubbles := [] }

def freeJelly : Jelly :=
  { x := 300, y := 200, vx := 2, vy := 0, scale := 1/2, phase := 0
    state := JState.FREE, bubbles := [] }

def cs9 : JellyState := ⟨[followJelly, freeJelly], true⟩

/-- C9 witness: the hand disappearing over `cs9` frees everything, and
the creature that already was `FREE` stays `FREE` at its position. -/
theorem jellyfish_free_transitions_witness :
    (∀ j ∈ (jellyTick zf zf halfR 1000 800 absentHand 0 cs9).particles,
      j.state = JState.FREE) ∧
    ((jellyTick zf zf halfR 1000 800 absentHand 0 cs9).particles.getD 1
      dummyJelly).state = JState.FREE :=
  ⟨(jellyfish_free_transitions zf zf halfR 1000 800 absentHand 0 cs9).1
      (Or.inr rfl),
   (jellyfish_free_transitions zf zf halfR 1000 800 absentHand 0 cs9).2 1
      (by decide) (by decide)⟩

/-- Helper: a landing keeps every column inside `[0, hgt]`: the
subtracted triangular contribution is nonnegative (for real flake sizes
`≥ 1` the radius is `≥ 2`), and the explicit clamp bounds below. -/
theorem landUpdate_bounds (width : ℕ) (hgt : ℚ) (g : ℕ → ℚ) (gx : ℤ) (size : ℚ)
    (hsize : 1 ≤ size) (hH : 0 ≤ hgt) (hg : ∀ i, 0 ≤ g i ∧ g i ≤ hgt) :
    ∀ i, 0 ≤ landUpdate width g gx size i ∧ landUpdate width g gx size i ≤ hgt := by
  intro i
  simp only [landUpdate]
  split_ifs with hcond
  · have hrad : (2 : ℤ) ≤ Int.floor (size * 2) := by
        rw [Int.le_floor]
        push_cast
        linarith
    have hd0 : (0 : ℤ) ≤ |(i : ℤ) - gx| := abs_nonneg _
    have hdr : |(i : ℤ) - gx| ≤ Int.floor (size * 2) := hcond.1
    have hdiv : (|(i : ℤ) - gx| : ℚ) / (Int.floor (size * 2) : ℚ) ≤ 1 := by
      rw [div_le_one (by exact_mod_cast lt_of_lt_of_le (by norm_num) hrad)]
      exact_mod_cast hdr
    have hcontrib : 0 ≤ (1 - (|(i : ℤ) - gx| : ℚ) / (Int.floor (size * 2) : ℚ))
        * (size * (5/10)) := by
      apply mul_nonneg (by linarith)
      linarith
    constructor
    · exact le_max_left 0 _
    · exact max_le hH (by linarith [(hg i).2])
  · exact hg i

/-- Helper: a melt keeps every column inside `[0, hgt]`: the added
linear-falloff power is nonnegative inside the 50 px brush, and the
explicit clamp bounds above. -/
theorem meltUpdate_bounds (width : ℕ) (hgt : ℚ) (g : ℕ → ℚ) (hx : ℤ)
    (hH : 0 ≤ hgt) (hg : ∀ i, 0 ≤ g i ∧ g i ≤ hgt) :
    ∀ i, 0 ≤ meltUpdate width hgt g hx i ∧ meltUpdate width hgt g hx i ≤ hgt := by
  intro i
  simp only [meltUpdate]
  split_ifs with hcond
  · have hdr : |(i : ℤ) - hx| ≤ 50 := hcond.1
    have hdiv : (|(i : ℤ) - hx| : ℚ) / 50 ≤ 1 := by
      rw [div_le_one (by norm_num)]
      exact_mod_cast hdr
    have hpow : 0 ≤ 3 * (1 - (|(i : ℤ) - hx| : ℚ) / 50) := by linarith
    constructor
    · exact le_min hH (by linarith [(hg i).1])
    · exact min_le_left _ _
  · exact hg i

/-- C5: from a height field with every column in `[0, surfaceHeight]`,
any sequence of flake landings (with the sizes the simulation actually
produces, all `≥ 1`) and hand melts leaves every column in
`[0, surfaceHeight]`. -/
theorem snow_ground_invariant (width : ℕ) (hgt : ℚ) (us : List SnowUpdate)
    (g : ℕ → ℚ) (hH : 0 ≤ hgt) (hv : us.all validSnowUpdate = true)
    (hg : ∀ i, 0 ≤ g i ∧ g i ≤ hgt) :
    ∀ i, 0 ≤ applySnowUpdates width hgt us g i ∧
      applySnowUpdates width hgt us g i ≤ hgt := by
  induction us generalizing g with
  | nil => exact hg
  | cons u rest ih =>
      rw [List.all_cons, Bool.and_eq_true] at hv
      cases u with
      | land gx size =>
          have hsize : 1 ≤ size := by
            have := hv.1
            simpa [validSnowUpdate] using this
          exact ih (landUpdate width g gx size) hv.2
            (landUpdate_bounds width hgt g gx size hsize hH hg)
      | melt hx =>
          exact ih (meltUpdate width hgt g hx) hv.2
            (meltUpdate_bounds width hgt g hx hH hg)

/-- C5 witness: a landing of a size-2 flake at column 1 followed by a
melt at column 1, over a 3-column field initially at height 10, keeps
column 1 inside `[0, 10]`. -/
theorem snow_ground_invariant_witness :
    0 ≤ applySnowUpdates 3 10 [SnowUpdate.land 1 2, SnowUpdate.melt 1]
        (fun _ => 10) 1 ∧
      applySnowUpdates 3 10 [SnowUpdate.land 1 2, SnowUpdate.melt 1]
        (fun _ => 10) 1 ≤ 10 :=
  snow_ground_invariant 3 10 [SnowUpdate.land 1 2, SnowUpdate.melt 1]
    (fun _ => 10) (by norm_num) (by with_unfolding_all decide)
    (fun _ => ⟨by norm_num, le_refl 10⟩) 1

/-- C2 (amended): a flake is classified large at spawn exactly when its
uniform draw exceeds 0.95 — a subset of `[0, 1)` of measure 0.05, i.e.
5% (so small has the remaining 95%) — and large flakes fall FASTER, not
slower: every large fall speed lies in `[2.2, 3.7)`, every small one in
`[0.3, 1.1)`, hence each large flake's per-tick vertical speed strictly
exceeds each small flake's. -/
theorem snowflake_classes (rand rand2 : ℕ → ℚ) (k k2 : ℕ) (piv piv2 x y x2 y2 : ℚ)
    (hr : ∀ n, 0 ≤ rand n ∧ rand n < 1) (hr2 : ∀ n, 0 ≤ rand2 n ∧ rand2 n < 1) :
    ((createSnowflake rand k piv x y).isParticle = false ↔ 95/100 < rand k) ∧
    ((createSnowflake rand k piv x y).isParticle = false →
      22/10 ≤ (createSnowflake rand k piv x y).vy ∧
        (createSnowflake rand k piv x y).vy < 37/10) ∧
    ((createSnowflake rand k piv x y).isParticle = true →
      3/10 ≤ (createSnowflake rand k piv x y).vy ∧
        (createSnowflake rand k piv x y).vy < 11/10) ∧
    ((createSnowflake rand k piv x y).isParticle = false →
      (createSnowflake rand2 k2 piv2 x2 y2).isParticle = true →
      (createSnowflake rand2 k2 piv2 x2 y2).vy < (createSnowflake rand k piv x y).vy) ∧
    MeasureTheory.volume (Set.Ioo (95/100 : ℝ) 1) = ENNReal.ofReal (5/100) := by
  have key : ∀ (r : ℕ → ℚ) (j : ℕ) (p a b : ℚ), (∀ n, 0 ≤ r n ∧ r n < 1) →
      ((createSnowflake r j p a b).isParticle = false ↔ 95/100 < r j) ∧
      ((createSnowflake r j p a b).isParticle = false →
        22/10 ≤ (createSnowflake r j p a b).vy ∧
          (createSnowflake r j p a b).vy < 37/10) ∧
      ((createSnowflake r j p a b).isParticle = true →
        3/10 ≤ (createSnowflake r j p a b).vy ∧
          (createSnowflake r j p a b).vy < 11/10) := by
    intro r j p a b hrng
    by_cases hbig : 95/100 < r j
    · have hvy : (createSnowflake r j p a b).vy = 22/10 + r (j + 2) * (15/10) := by
        simp [createSnowflake, hbig]
      refine ⟨by simp [createSnowflake, hbig], ?_, ?_⟩
      · intro _
        rw [hvy]
        constructor
        · nlinarith [(hrng (j + 2)).1]
        · nlinarith [(hrng (j + 2)).2]
      · intro hcontra
        simp [createSnowflake, hbig] at hcontra
    · have hvy : (createSnowflake r j p a b).vy = 3/10 + r (j + 2) * (8/10) := by
        simp [createSnowflake, hbig]
      refine ⟨by simp [createSnowflake, hbig], ?_, ?_⟩
      · intro hcontra
        simp [createSnowflake, hbig] at hcontra
      · intro _
        rw [hvy]
        constructor
        · nlinarith [(hrng (j + 2)).1]
        · nlinarith [(hrng (j + 2)).2]
  obtain ⟨h1, h2, h3⟩ := key rand k piv x y hr
  obtain ⟨_, _, h3'⟩ := key rand2 k2 piv2 x2 y2 hr2
  refine ⟨h1, h2, h3, ?_, ?_⟩
  · intro hbig hsmall
    have hb := h2 hbig
    have hs := h3' hsmall
    linarith [hb.1, hs.2]
  · rw [Real.volume_Ioo]
    norm_num

/-- C2 witness: with all draws 0.96 the flake is large with
`vy = 3.64`; with all draws 0 the flake is small with `vy = 0.3`; the
large one falls faster. -/
theorem snowflake_classes_witness :
    ((createSnowflake (fun _ => 96/100) 0 3 0 0).isParticle = false ↔
      (95/100 : ℚ) < 96/100) ∧
    ((createSnowflake (fun _ => 96/100) 0 3 0 0).isParticle = false →
      22/10 ≤ (createSnowflake (fun _ => 96/100) 0 3 0 0).vy ∧
        (createSnowflake (fun _ => 96/100) 0 3 0 0).vy < 37/10) ∧
    ((createSnowflake (fun _ => 96/100) 0 3 0 0).isParticle = true →
      3/10 ≤ (createSnowflake (fun _ => 96/100) 0 3 0 0).vy ∧
        (createSnowflake (fun _ => 96/100) 0 3 0 0).vy < 11/10) ∧
    ((createSnowflake (fun _ => 96/100) 0 3 0 0).isParticle = false →
      (createSnowflake (fun _ => 0) 0 3 0 0).isParticle = true →
      (createSnowflake (fun _ => 0) 0 3 0 0).vy
        < (createSnowflake (fun _ => 96/100) 0 3 0 0).vy) ∧
    MeasureTheory.volume (Set.Ioo (95/100 : ℝ) 1) = ENNReal.ofReal (5/100) :=
  snowflake_classes (fun _ => 96/100) (fun _ => 0) 0 0 3 3 0 0 0 0
    (fun _ => by norm_num) (fun _ => by norm_num)

/-- Random-stream fixture spawning a large flake with the slowest large
fall speed 2.2. -/
def bigDrawR : ℕ → ℚ := fun n => if n = 0 then 96/100 else 0

/-- Random-stream fixture spawning a small flake with fall speed 1.02. -/
def smallDrawR : ℕ → ℚ := fun n => if n = 2 then 9/10 else 0

/-- C2 counterexample: a large flake falling 2.2 px/tick and a small
flake falling 1.02 px/tick — the large flake is NOT slower, refuting
the claimed speed ordering. -/
theorem snowflake_speed_cex :
    (createSnowflake bigDrawR 0 3 0 0).isParticle = false ∧
    (createSnowflake smallDrawR 0 3 0 0).isParticle = true ∧
    ¬((createSnowflake bigDrawR 0 3 0 0).vy
        < (createSnowflake smallDrawR 0 3 0 0).vy) := by
  with_unfolding_all decide

/-- C9 counterexample: with the random draws exactly 0.5 the freed
creature's assigned velocity is `(0.5 − 0.5) · 6 = 0` in both
components; the claim's "non-zero velocity" is not guaranteed. -/
theorem jellyfish_free_velocity_cex :
    ((jellyTick zf zf halfR 1000 800 absentHand 0
        ⟨[followJelly], true⟩).particles.getD 0 dummyJelly).state = JState.FREE ∧
    ((jellyTick zf zf halfR 1000 800 absentHand 0
        ⟨[followJelly], true⟩).particles.getD 0 dummyJelly).vx = 0 ∧
    ((jellyTick zf zf halfR 1000 800 absentHand 0
        ⟨[followJelly], true⟩).particles.getD 0 dummyJelly).vy = 0 := by
  with_unfolding_all decide

/-- The planar position of a landmark, as a point of the Euclidean
plane (the space in which the pose signal's `x`, `y` live). -/
noncomputable def lmPoint (p : Landmark) : EuclideanSpace ℝ (Fin 2) :=
  ![(p.x : ℝ), (p.y : ℝ)]

/-- The full 3-D position of a landmark `(x, y, z)`. -/
noncomputable def lmPoint3 (p : Landmark) : EuclideanSpace ℝ (Fin 3) :=
  ![(p.x : ℝ), (p.y : ℝ), (p.z : ℝ)]

/-- C4 (amended): whenever the ambient square root is faithful at the
computed squared distance, the published pinch distance equals the
Euclidean distance between the planar `(x, y)` positions of the index
fingertip (landmark 8) and the thumb fingertip (landmark 4) — the `z`
coordinates are ignored by the computation — and `isPinching` holds iff
that distance is strictly below 0.06. -/
theorem pinch_euclidean (sqrtf : ℚ → ℚ) (lms : List Landmark)
    (hs : ((sqrtf (distSq (lmAt lms 8) (lmAt lms 4)) : ℚ) : ℝ)
      = Real.sqrt ((distSq (lmAt lms 8) (lmAt lms 4) : ℚ) : ℝ)) :
    ((sqrtf (distSq (lmAt lms 8) (lmAt lms 4)) : ℚ) : ℝ)
      = dist (lmPoint (lmAt lms 8)) (lmPoint (lmAt lms 4)) ∧
    (isPinchingB sqrtf lms = true ↔
      ((sqrtf (distSq (lmAt lms 8) (lmAt lms 4)) : ℚ) : ℝ) < 6/100) := by
  constructor
  · rw [hs, EuclideanSpace.dist_eq]
    congr 1
    rw [Fin.sum_univ_two]
    simp only [lmPoint, Matrix.cons_val_zero, Matrix.cons_val_one, Matrix.head_cons,
      Real.dist_eq, sq_abs, distSq]
    push_cast
    ring
  · rw [isPinchingB, decide_eq_true_eq]
    constructor
    · intro hlt
      calc ((sqrtf (distSq (lmAt lms 8) (lmAt lms 4)) : ℚ) : ℝ)
          < ((6/100 : ℚ) : ℝ) := by exact_mod_cast hlt
        _ = 6/100 := by norm_num
    · intro hlt
      have : ((sqrtf (distSq (lmAt lms 8) (lmAt lms 4)) : ℚ) : ℝ)
          < ((6/100 : ℚ) : ℝ) := by
        calc ((sqrtf (distSq (lmAt lms 8) (lmAt lms 4)) : ℚ) : ℝ)
            < 6/100 := hlt
          _ = ((6/100 : ℚ) : ℝ) := by norm_num
      exact_mod_cast this

/-- C4 witness: on the `okLms` fixture the squared pinch distance is
0.0025, the faithful root gives 0.05, the planar Euclidean distance is
0.05, and pinching holds. -/
theorem pinch_euclidean_witness :
    ((okSqrt (distSq (lmAt okLms 8) (lmAt okLms 4)) : ℚ) : ℝ)
      = dist (lmPoint (lmAt okLms 8)) (lmPoint (lmAt okLms 4)) ∧
    (isPinchingB okSqrt okLms = true ↔
      ((okSqrt (distSq (lmAt okLms 8) (lmAt okLms 4)) : ℚ) : ℝ) < 6/100) :=
  pinch_euclidean okSqrt okLms
    (by
      have hd : distSq (lmAt okLms 8) (lmAt okLms 4) = 25/10000 := by
        with_unfolding_all decide
      rw [hd, show ((25/10000 : ℚ) : ℝ) = (5/100 : ℝ)^2 by norm_num,
        Real.sqrt_sq (by norm_num)]
      have ho : okSqrt (25/10000) = 5/100 := by with_unfolding_all decide
      rw [ho]
      norm_num)

/-- Landmark fixture: a hand whose thumb and index fingertips coincide
in `(x, y)` but differ by 0.6 in depth `z`. -/
def zLms : List Landmark :=
  [ ⟨0, 0, 0⟩, ⟨0, 0, 0⟩, ⟨0, 0, 0⟩, ⟨0, 0, 0⟩
  , ⟨1/2, 1/2, 0⟩, ⟨0, 0, 0⟩, ⟨0, 0, 0⟩, ⟨0, 0, 0⟩
  , ⟨1/2, 1/2, 6/10⟩, ⟨0, 0, 0⟩, ⟨0, 0, 0⟩, ⟨0, 0, 0⟩
  , ⟨0, 0, 0⟩, ⟨0, 0, 0⟩, ⟨0, 0, 0⟩, ⟨0, 0, 0⟩
  , ⟨0, 0, 0⟩, ⟨0, 0, 0⟩, ⟨0, 0, 0⟩, ⟨0, 0, 0⟩
  , ⟨0, 0, 0⟩ ]

/-- C4 counterexample: the landmarks are `(x, y, z)` points, and on
`zLms` the code computes pinch distance `√0 = 0` while the Euclidean
distance between the index and thumb fingertip landmarks (as 3-D
points) is 0.6 — so read over the full landmarks the claim is false;
only the planar reading survives. -/
theorem pinch_euclidean_cex :
    Real.sqrt ((distSq (lmAt zLms 8) (lmAt zLms 4) : ℚ) : ℝ) = 0 ∧
    dist (lmPoint3 (lmAt zLms 8)) (lmPoint3 (lmAt zLms 4)) = 6/10 ∧
    (0 : ℝ) ≠ 6/10 := by
  refine ⟨?_, ?_, by norm_num⟩
  · have hd : distSq (lmAt zLms 8) (lmAt zLms 4) = 0 := by
      with_unfolding_all decide
    rw [hd]
    norm_num
  · rw [EuclideanSpace.dist_eq]
    have h8 : lmAt zLms 8 = ⟨1/2, 1/2, 6/10⟩ := by with_unfolding_all decide
    have h4 : lmAt zLms 4 = ⟨1/2, 1/2, 0⟩ := by with_unfolding_all decide
    rw [h8, h4, Fin.sum_univ_three]
    simp only [lmPoint3, Matrix.cons_val_zero, Matrix.cons_val_one, Matrix.head_cons,
      Matrix.cons_val_two, Matrix.tail_cons, Real.dist_eq, sq_abs]
    push_cast
    rw [show ((1:ℝ)/2 - 1/2)^2 + (1/2 - 1/2)^2 + (6/10 - 0)^2 = (6/10)^2 by ring]
    rw [Real.sqrt_sq (by norm_num)]

/-- C6: the drop-update loop removes exactly the drops whose updated
position crosses the water line, keeps the others (fallen by their
speed, order preserved), and creates exactly one ripple and exactly
three splash particles per crossing drop; concretely, a single drop
spawned at `y = -50` with fall speed 25 over an 800 px canvas (water
line 700) survives 30 ticks and on tick 31 is removed, leaving exactly
1 ripple and 3 splashes. -/
theorem drop_waterline :
    (∀ (rand : ℕ → ℚ) (k : ℕ) (wl : ℚ) (drops : List Drop),
      (processDrops rand k wl drops).1
          = (drops.map (fun d => { d with y := d.y + d.speed })).filter
              (fun d => !decide (d.y > wl)) ∧
      (processDrops rand k wl drops).2.1.length
          = ((drops.map (fun d => { d with y := d.y + d.speed })).filter
              (fun d => decide (d.y > wl))).length ∧
      (processDrops rand k wl drops).2.2.1.length
          = 3 * ((drops.map (fun d => { d with y := d.y + d.speed })).filter
              (fun d => decide (d.y > wl))).length) ∧
    ((rainTick halfR 1000 800 absentHand)^[30]
        ⟨[{ x := 100, y := -50, len := 20, speed := 25 }], [], []⟩).drops.length = 1 ∧
    ((rainTick halfR 1000 800 absentHand)^[31]
        ⟨[{ x := 100, y := -50, len := 20, speed := 25 }], [], []⟩).drops = [] ∧
    ((rainTick halfR 1000 800 absentHand)^[31]
        ⟨[{ x := 100, y := -50, len := 20, speed := 25 }], [], []⟩).ripples.length = 1 ∧
    ((rainTick halfR 1000 800 absentHand)^[31]
        ⟨[{ x := 100, y := -50, len := 20, speed := 25 }], [], []⟩).splashes.length = 3 := by
  refine ⟨?_, ?_, ?_, ?_, ?_⟩
  · intro rand k wl drops
    induction drops generalizing k with
    | nil => exact ⟨rfl, rfl, rfl⟩
    | cons d rest ih =>
        by_cases hc : d.y + d.speed > wl
        · have hcd : decide (({ d with y := d.y + d.speed } : Drop).y > wl) = true := by
            simpa using hc
          obtain ⟨ih1, ih2, ih3⟩ := ih (k + 8)
          refine ⟨?_, ?_, ?_⟩
          · simp [processDrops, hc, hcd, ih1]
          · simp [processDrops, hc, hcd, ih2]
          · simp [processDrops, hc, hcd, ih3]
            ring
        · have hcd : decide (({ d with y := d.y + d.speed } : Drop).y > wl) = false := by
            simpa using hc
          obtain ⟨ih1, ih2, ih3⟩ := ih k
          refine ⟨?_, ?_, ?_⟩
          · simp [processDrops, hc, hcd, ih1]
          · simp [processDrops, hc, hcd, ih2]
          · simp [processDrops, hc, hcd, ih3]
  · with_unfolding_all decide
  · with_unfolding_all decide
  · with_unfolding_all decide
  · with_unfolding_all decide
